import Mathlib

/-!
Verification of the `meson_analysis` correlator-collection data model and its
three format parsers, as a shallow embedding of the Python sources
(`correlator.py`, `readers/read_hirep.py`, `readers/read_hadrons.py`,
`readers/read_flexlatsim.py`).

Modelling conventions:
* Python exceptions are `Except PyErr`; each distinct raise site or builtin
  exception class gets an informative constructor.
* Python floats are modelled as rationals (`ℚ`); the float literals parsed by
  these readers are short decimals, for which decimal parsing into `ℚ` is
  exact and float equality agrees with rational equality.
* Python strings are modelled as `String`, with all operations implemented
  structurally over `String.data` (`List Char`) so that concrete runs reduce
  inside the kernel.  Each `py...` helper mirrors one Python builtin or
  method used by the sources.
* NumPy arrays appear in two ways.  For value-level claims the correlator is
  just its list of entries (`np.asarray` preserves entries).  For the
  aliasing claim about defensive copies there is a separate explicit-store
  model (`ArrayStore`, `PySeq`) in which `np.asarray` allocates a fresh
  array for a plain list but returns the same address for an existing array,
  exactly as documented for `numpy.asarray`.
-/

/-- Exceptions raised by the modelled code.  Python raises `ValueError` with a
message in most of these places; the constructors record which raise site or
builtin exception class is meant. -/
inductive PyErr where
  /-- Raised by append in `correlator.py` (cannot append to a frozen ensemble). -/
  | frozenAppend
  /-- Raised by append in `correlator.py` (correlation function lengths differ). -/
  | lengthMismatch
  /-- Model of `correlator.py` get: "Need to be frozen to subset the ensemble." -/
  | notFrozenSubset
  /-- Model of `correlator.py` get: "Multiple values for {field} returned." -/
  | multipleValues (field : String)
  /-- Model of `read_hirep.py`: "Representation mismatch between ensemble and code" -/
  | representationMismatch
  /-- Model of `read_flexlatsim.py`: "Trajectory ... inconsistent at time index ..." -/
  | timeIndexInconsistent
  /-- Python `IndexError` (sequence index out of range). -/
  | indexError
  /-- Python `KeyError` (mapping lookup failure, including the `KeyError`
  raised by `pd.DataFrame([]).sort_values([...])` when freezing an empty
  ensemble). -/
  | keyError
  /-- Python `ValueError` from a failed builtin conversion or unpacking. -/
  | valueError
  /-- Python `TypeError` (e.g. `int(None)`). -/
  | typeError
  /-- Python `AttributeError` (e.g. `None.groups()` after a failed regex). -/
  | attributeError
  /-- Python `NameError`/`UnboundLocalError` (variable referenced before
  assignment). -/
  | nameError
deriving DecidableEq

deriving instance DecidableEq for Except

/-! ## Python string and number helpers (structural, kernel-computable) -/

/-- Model of `p <+: cs` as a Bool: Python `str.startswith`. -/
def pyStartsWith (cs p : List Char) : Bool := decide (p <+: cs)

/-- Model of `sub <:+: cs` as a Bool: Python `sub in s` substring containment. -/
def pyContains (cs sub : List Char) : Bool := decide (sub <:+: cs)

/-- Python `str.split()` with no argument: split on runs of whitespace,
discarding empty fields. -/
def pySplitWs (cs : List Char) : List (List Char) :=
  go cs []
where
  go : List Char → List Char → List (List Char)
    | [], acc => if acc = [] then [] else [acc.reverse]
    | c :: rest, acc =>
      if c.isWhitespace then
        if acc = [] then go rest [] else acc.reverse :: go rest []
      else go rest (c :: acc)

/-- Python `str.split(sep)` for a single-character separator: keeps empty
fields. -/
def pySplitOn (cs : List Char) (sep : Char) : List (List Char) :=
  go cs []
where
  go : List Char → List Char → List (List Char)
    | [], acc => [acc.reverse]
    | c :: rest, acc =>
      if c = sep then acc.reverse :: go rest [] else go rest (c :: acc)

/-- Python `str.strip(chars)`: remove leading and trailing characters drawn
from `chars`. -/
def pyStrip (cs chars : List Char) : List Char :=
  ((cs.dropWhile (· ∈ chars)).reverse.dropWhile (· ∈ chars)).reverse

/-- Python `str.lower` (ASCII, which is all these logs contain). -/
def pyLower (cs : List Char) : List Char := cs.map Char.toLower

/-- Python `str.replace(old, new)` for a nonempty `old`: replace every
occurrence.  Implemented with explicit fuel to stay structurally
recursive. -/
def pyReplace (cs old new : List Char) : List Char :=
  if old = [] then cs else go cs.length cs
where
  go : Nat → List Char → List Char
    | 0, rest => rest
    | _ + 1, [] => []
    | fuel + 1, c :: rest =>
      if pyStartsWith (c :: rest) old then
        new ++ go fuel ((c :: rest).drop old.length)
      else c :: go fuel rest

/-- Value of a digit string (digits only). -/
def digitsVal (ds : List Char) : Nat :=
  ds.foldl (fun acc c => 10 * acc + (c.toNat - '0'.toNat)) 0

/-- Python `int(s)`: optional surrounding whitespace, optional sign, then at
least one digit.  `Option.none` models the `ValueError` raise. -/
def pyInt (cs : List Char) : Option Int :=
  let t := pyStrip cs [' ', '\t', '\n', '\r']
  match t with
  | '-' :: ds => if ds ≠ [] ∧ ds.all Char.isDigit then Option.some (-(digitsVal ds : Int)) else Option.none
  | '+' :: ds => if ds ≠ [] ∧ ds.all Char.isDigit then Option.some (digitsVal ds : Int) else Option.none
  | ds => if ds ≠ [] ∧ ds.all Char.isDigit then Option.some (digitsVal ds : Int) else Option.none

/-- Python `float(s)` restricted to the plain decimal forms these logs
contain (optional sign, digits, optional fractional part; no exponent).
`Option.none` models the `ValueError` raise. -/
def pyFloat (cs : List Char) : Option ℚ :=
  let t := pyStrip cs [' ', '\t', '\n', '\r']
  match t with
  | '-' :: ds => (pyFloatMag ds).map (fun q => -q)
  | '+' :: ds => pyFloatMag ds
  | ds => pyFloatMag ds
where
  /-- Unsigned decimal: `intpart[.fracpart]`, at least one digit overall. -/
  pyFloatMag (ds : List Char) : Option ℚ :=
    let ip := ds.takeWhile Char.isDigit
    let rest := ds.drop ip.length
    match rest with
    | [] => if ip = [] then Option.none else Option.some (mkRat (digitsVal ip) 1)
    | '.' :: fp =>
      if fp.all Char.isDigit ∧ (ip ≠ [] ∨ fp ≠ []) then
        Option.some (mkRat (digitsVal ip * 10 ^ fp.length + digitsVal fp) (10 ^ fp.length))
      else Option.none
    | _ => Option.none

/-- Model of `Option` to `Except`, the given error standing for the Python raise. -/
def pyE {α : Type} (e : PyErr) : Option α → Except PyErr α
  | Option.some a => Except.ok a
  | Option.none => Except.error e

/-- Python sequence indexing `l[i]` for a nonnegative index: raises
`IndexError` when out of range. -/
def pyIx {α : Type} (l : List α) (i : Nat) : Except PyErr α :=
  pyE PyErr.indexError (l.get? i)

/-! ## Metadata values (`metadata` dictionaries hold strings, ints, floats,
`None` and one list of floats) -/

/-- A value stored in an ensemble `metadata` dictionary. -/
inductive MVal where
  | none
  | str (s : String)
  | int (n : Int)
  | rat (q : ℚ)
  | ratList (xs : List ℚ)
deriving DecidableEq

/-- Python truthiness of a metadata value (`if value and ...`). -/
def MVal.truthy : MVal → Bool
  | MVal.none => false
  | MVal.str s => s ≠ ""
  | MVal.int n => n ≠ 0
  | MVal.rat q => q ≠ 0
  | MVal.ratList xs => xs ≠ []

/-- Metadata dictionary: insertion-ordered association list, unique keys. -/
abbrev MMap : Type := List (String × MVal)

/-- Dictionary lookup `metadata.get(name)`. -/
def mlookup (m : MMap) (k : String) : Option MVal :=
  (m.find? (fun p => p.1 == k)).map (fun p => p.2)

/-- Dictionary assignment `metadata[name] = value`: overwrite in place, or
append a new key. -/
def minsert (m : MMap) (k : String) (v : MVal) : MMap :=
  if m.any (fun p => p.1 == k) then
    m.map (fun p => if p.1 == k then (k, v) else p)
  else m ++ [(k, v)]

/-- Dictionary membership `name in metadata`. -/
def mContains (m : MMap) (k : String) : Bool := m.any (fun p => p.1 == k)

/-! ## The correlator data model (`correlator.py`) -/

/-- The `Correlator` namedtuple: one measurement plus its provenance key.
`V` is the entry type of the time series (`ℚ` for the real-valued readers,
`ℚ × ℚ` for the complex-valued Hadrons reader). -/
structure Correlator (V : Type) where
  stream_name : String
  cfg_index : Int
  source_type : String
  connection_type : String
  channel : String
  valence_mass : ℚ
  correlator : List V
deriving DecidableEq

/-- The `CorrelatorEnsemble`: a list of records plus a metadata dictionary
and the `_frozen` flag.  Before `freeze` the records sit in append order;
`freeze` replaces the list with its sorted form (the model of the sorted
`DataFrame`).  The Python `filename` attribute plays no role in any claim
and is omitted. -/
structure CorrelatorEnsemble (V : Type) where
  correlators : List (Correlator V)
  metadata : MMap := []
  frozen : Bool := false
deriving DecidableEq

/-- A fresh, open ensemble (`CorrelatorEnsemble(filename)`). -/
def CorrelatorEnsemble.new {V : Type} : CorrelatorEnsemble V :=
  { correlators := [], metadata := [], frozen := false }

/-- Model of `CorrelatorEnsemble.append`: refuse when frozen; refuse a record whose
correlator length differs from the first record; otherwise store the record
(`np.asarray` leaves the entries unchanged; the aliasing aspect of the copy
is modelled separately by `HeapEnsemble.appendH`). -/
def CorrelatorEnsemble.append {V : Type} (e : CorrelatorEnsemble V) (c : Correlator V) :
    Except PyErr (CorrelatorEnsemble V) :=
  if e.frozen then Except.error PyErr.frozenAppend
  else
    match e.correlators with
    | [] => Except.ok { e with correlators := [c] }
    | c0 :: rest =>
      if c.correlator.length = c0.correlator.length then
        Except.ok { e with correlators := (c0 :: rest) ++ [c] }
      else Except.error PyErr.lengthMismatch

/-- Sort key used by `freeze`: the column list
`["stream_name", "cfg_index", "source_type", "connection_type"]`,
compared lexicographically. -/
def corrKey {V : Type} (c : Correlator V) : String ×ₗ (Int ×ₗ (String ×ₗ String)) :=
  toLex (c.stream_name, toLex (c.cfg_index, toLex (c.source_type, c.connection_type)))

/-- Boolean comparison for the freeze sort. -/
def corrLE {V : Type} (a b : Correlator V) : Bool := decide (corrKey a ≤ corrKey b)

/-- Model of `CorrelatorEnsemble.freeze`: build the sorted table and set the frozen
flag.  `pd.sort_values` with a multi-column key is a stable lexicographic
sort (`np.lexsort`), modelled by `List.mergeSort`.  On an empty ensemble
`pd.DataFrame([])` has no columns and `sort_values` raises `KeyError`. -/
def CorrelatorEnsemble.freeze {V : Type} (e : CorrelatorEnsemble V) :
    Except PyErr (CorrelatorEnsemble V) :=
  match e.correlators with
  | [] => Except.error PyErr.keyError
  | c :: rest =>
    Except.ok { e with correlators := (c :: rest).mergeSort corrLE, frozen := true }

/-- The keyword criteria accepted by `get`.  The six scalar record fields can
be filtered on; a `Option.none` entry means the field is not constrained. -/
structure Criteria where
  stream_name : Option String := Option.none
  cfg_index : Option Int := Option.none
  source_type : Option String := Option.none
  connection_type : Option String := Option.none
  channel : Option String := Option.none
  valence_mass : Option ℚ := Option.none
deriving DecidableEq

/-- One record matches the criteria when every given field is equal
(`subset = subset[subset[field] == value]`, over all criteria). -/
def Criteria.sat {V : Type} (cr : Criteria) (c : Correlator V) : Bool :=
  (cr.stream_name.all fun v => v == c.stream_name) &&
  (cr.cfg_index.all fun v => v == c.cfg_index) &&
  (cr.source_type.all fun v => v == c.source_type) &&
  (cr.connection_type.all fun v => v == c.connection_type) &&
  (cr.channel.all fun v => v == c.channel) &&
  (cr.valence_mass.all fun v => v == c.valence_mass)

/-- Model of `len(set(xs)) > 1`: more than one distinct value present. -/
def multiValued {α : Type} [DecidableEq α] (xs : List α) : Bool :=
  decide (1 < xs.dedup.length)

/-- Model of `CorrelatorEnsemble.get`: require frozen, filter on all criteria, then
require each of `source_type`, `connection_type`, `channel`, `valence_mass`
to be single-valued in the filtered subset (checked in that order), and
return the correlators keyed by `(stream_name, cfg_index)` in the frozen
(sorted) row order, as the indexed Series does. -/
def CorrelatorEnsemble.get {V : Type} (e : CorrelatorEnsemble V) (cr : Criteria) :
    Except PyErr (List ((String × Int) × List V)) :=
  if e.frozen = false then Except.error PyErr.notFrozenSubset
  else
    let subset := e.correlators.filter (fun c => cr.sat c)
    if multiValued (subset.map (fun c => c.source_type)) then
      Except.error (PyErr.multipleValues "source_type")
    else if multiValued (subset.map (fun c => c.connection_type)) then
      Except.error (PyErr.multipleValues "connection_type")
    else if multiValued (subset.map (fun c => c.channel)) then
      Except.error (PyErr.multipleValues "channel")
    else if multiValued (subset.map (fun c => c.valence_mass)) then
      Except.error (PyErr.multipleValues "valence_mass")
    else
      Except.ok (subset.map fun c => ((c.stream_name, c.cfg_index), c.correlator))

/-- A sequence of `append` calls. -/
def CorrelatorEnsemble.appendAll {V : Type} (e : CorrelatorEnsemble V)
    (rs : List (Correlator V)) : Except PyErr (CorrelatorEnsemble V) :=
  rs.foldlM CorrelatorEnsemble.append e

/-- append*; freeze; get — the round-trip pipeline of the spec. -/
def roundTrip {V : Type} (rs : List (Correlator V)) (cr : Criteria) :
    Except PyErr (List ((String × Int) × List V)) := do
  let e ← CorrelatorEnsemble.appendAll CorrelatorEnsemble.new rs
  let e ← e.freeze
  e.get cr

/-- The criteria that pin down one record by its four disambiguating
fields. -/
def exactCriteria {V : Type} (r : Correlator V) : Criteria :=
  { source_type := Option.some r.source_type,
    connection_type := Option.some r.connection_type,
    channel := Option.some r.channel,
    valence_mass := Option.some r.valence_mass }

/-- Is the result the ambiguous-selection error? -/
def isMultipleValuesError {α : Type} : Except PyErr α → Bool
  | Except.error (PyErr.multipleValues _) => true
  | _ => false

/-! ## Explicit-store model of `np.asarray` aliasing (for the
defensive-copy claim about `append`) -/

/-- A store of NumPy arrays; an address is an index into `arrays`. -/
structure ArrayStore where
  arrays : List (List ℚ)
deriving DecidableEq

/-- Allocate a fresh array holding `v`; returns its address. -/
def ArrayStore.alloc (s : ArrayStore) (v : List ℚ) : ArrayStore × Nat :=
  ({ arrays := s.arrays ++ [v] }, s.arrays.length)

/-- Read the array at an address. -/
def ArrayStore.read (s : ArrayStore) (a : Nat) : List ℚ :=
  (s.arrays.get? a).getD []

/-- In-place mutation of the array at an address (e.g. `arr[:] = ...` or
item assignment by the caller, after `append`). -/
def ArrayStore.write (s : ArrayStore) (a : Nat) (v : List ℚ) : ArrayStore :=
  { arrays := s.arrays.set a v }

/-- A Python object passed as `correlator.correlator`: either a plain list
of numbers (by value) or a reference to an existing NumPy array. -/
inductive PySeq where
  | list (xs : List ℚ)
  | array (addr : Nat)
deriving DecidableEq

/-- Model of `np.asarray`: converts a plain list into a fresh array, but returns an
existing array object unchanged — no copy is performed for an ndarray
input of matching dtype. -/
def npAsarray (s : ArrayStore) : PySeq → ArrayStore × Nat
  | PySeq.list xs => s.alloc xs
  | PySeq.array a => (s, a)

/-- The numeric entries of a passed sequence, as seen through the store. -/
def PySeq.values (s : ArrayStore) : PySeq → List ℚ
  | PySeq.list xs => xs
  | PySeq.array a => s.read a

/-- The ensemble, at the aliasing level of detail: the list of stored
correlator-array addresses plus the frozen flag.  The other namedtuple
fields are immutable scalars copied by value by `_replace` and play no role
in the aliasing question, so they are omitted here. -/
structure HeapEnsemble where
  correlators : List Nat
  frozen : Bool := false
deriving DecidableEq

/-- Model of `append` at the aliasing level: the frozen and length checks of
`CorrelatorEnsemble.append`, then storage of `np.asarray(correlator.correlator)`. -/
def HeapEnsemble.appendH (s : ArrayStore) (e : HeapEnsemble) (c : PySeq) :
    Except PyErr (ArrayStore × HeapEnsemble) :=
  if e.frozen then Except.error PyErr.frozenAppend
  else
    match e.correlators with
    | [] =>
      let (s', a) := npAsarray s c
      Except.ok (s', { e with correlators := [a] })
    | a0 :: rest =>
      if (PySeq.values s c).length = (s.read a0).length then
        let (s', a) := npAsarray s c
        Except.ok (s', { e with correlators := (a0 :: rest) ++ [a] })
      else Except.error PyErr.lengthMismatch

/-- The correlator values observable through the collection (what `get`
returns after `freeze`, for the stored rows). -/
def HeapEnsemble.observed (s : ArrayStore) (e : HeapEnsemble) : List (List ℚ) :=
  e.correlators.map s.read

/-! ## Hirep reader (`readers/read_hirep.py`) -/

/-- The `_reps` table mapping filename representation tags to names. -/
def repsTable : List (String × String) :=
  [("FUN", "fundamental"), ("SYM", "symmetric"), ("ASY", "antisymmetric"), ("ADJ", "adjoint")]

/-- Model of `add_single_consistent_metadatum(metadata, name, value)`.  Returns the
updated dictionary and whether the "values are not consistent!" warning was
logged.  Note the Python assigns `metadata[name] = value` unconditionally
after the check, so the dictionary always ends up holding the new value. -/
def add_single_consistent_metadatum (metadata : MMap) (name : String) (value : MVal) :
    MMap × Bool :=
  let warned := value.truthy && mContains metadata name &&
    !(mlookup metadata name == Option.some value)
  (minsert metadata name value, warned)

/-- Model of `add_cfg_metadata(metadata, Nc, rep, Nf, beta, mass)`.  Returns the
updated dictionary and the number of warnings logged (the Nc cross-check
plus the four consistency checks). -/
def add_cfg_metadata (metadata : MMap) (Nc : Int) (rep : MVal) (Nf : Int) (beta mass : ℚ) :
    MMap × Nat :=
  let ncWarn := !(mlookup metadata "Nc" == Option.some (MVal.int Nc))
  let (m1, w1) := add_single_consistent_metadatum metadata "dynamical_representation" rep
  let (m2, w2) := add_single_consistent_metadatum m1 "Nf" (MVal.int Nf)
  let (m3, w3) := add_single_consistent_metadatum m2 "beta" (MVal.rat beta)
  let (m4, w4) := add_single_consistent_metadatum m3 "dynamical_mass" (MVal.rat mass)
  (m4, (if ncWarn then 1 else 0) + (if w1 then 1 else 0) + (if w2 then 1 else 0) +
    (if w3 then 1 else 0) + (if w4 then 1 else 0))

/-- The digits at the start of `cs`, and the remainder. -/
def takeDigits (cs : List Char) : List Char × List Char :=
  (cs.takeWhile Char.isDigit, cs.dropWhile Char.isDigit)

/-- Expect a literal character sequence at the start. -/
def expectLit (lit cs : List Char) : Option (List Char) :=
  if pyStartsWith cs lit then Option.some (cs.drop lit.length) else Option.none

/-- Expect `digits '.' digits` (the `[0-9]+\.[0-9]+` groups for beta and
mass); returns the value and the remainder. -/
def parseDecimalGroup (cs : List Char) : Option (ℚ × List Char) := do
  let (ip, r1) := takeDigits cs
  if ip = [] then failure
  let r2 ← expectLit ['.'] r1
  let (fp, r3) := takeDigits r2
  if fp = [] then failure
  Option.some (mkRat (digitsVal ip * 10 ^ fp.length + digitsVal fp) (10 ^ fp.length), r3)

/-- The capture groups of the rigid filename tail (the representation tag
and the `nf` group are optional in the grammar). -/
structure CfgTailGroups where
  Nc : Int
  repTag : Option (List Char)
  NfGroup : Option Int
  beta : ℚ
  mass : ℚ
  cfg_index : Int
deriving DecidableEq

/-- The parsed groups of `parse_cfg_filename`. -/
structure CfgFileParams where
  run_name : String
  Nc : Int
  rep : Option String
  Nf : Int
  beta : ℚ
  mass : ℚ
  cfg_index : Int
deriving DecidableEq

/-- The rigid part of the configuration-filename grammar after the
`run_name` underscore:
`{NT}x{NX}x{NY}x{NZ}nc{Nc}[r{REP}][nf{Nf}]b{beta}m{mass}n{cfg_index}`,
with arbitrary trailing characters allowed (the regex is not end-anchored). -/
def parseCfgTail (cs : List Char) : Option CfgTailGroups := do
  let (d1, r) := takeDigits cs
  if d1 = [] then failure
  let r ← expectLit ['x'] r
  let (d2, r) := takeDigits r
  if d2 = [] then failure
  let r ← expectLit ['x'] r
  let (d3, r) := takeDigits r
  if d3 = [] then failure
  let r ← expectLit ['x'] r
  let (d4, r) := takeDigits r
  if d4 = [] then failure
  let r ← expectLit ['n', 'c'] r
  let (nc, r) := takeDigits r
  if nc = [] then failure
  let (rep, r) :=
    match r with
    | 'r' :: r1 =>
      let caps := r1.takeWhile Char.isUpper
      if caps = [] then (Option.none, r) else (Option.some caps, r1.drop caps.length)
    | _ => (Option.none, r)
  let (nf, r) :=
    match r with
    | 'n' :: 'f' :: r1 =>
      let ds := r1.takeWhile Char.isDigit
      if ds = [] then (Option.none, r) else
        (Option.some (digitsVal ds : Int), r1.drop ds.length)
    | _ => (Option.none, r)
  let r ← expectLit ['b'] r
  let (beta, r) ← parseDecimalGroup r
  let r ← expectLit ['m'] r
  let (neg, r) := match r with | '-' :: r1 => (true, r1) | _ => (false, r)
  let (mass, r) ← parseDecimalGroup r
  let r ← expectLit ['n'] r
  let (ci, _) := takeDigits r
  if ci = [] then failure
  Option.some {
    Nc := (digitsVal nc : Int), repTag := rep, NfGroup := nf, beta := beta,
    mass := if neg then -mass else mass, cfg_index := (digitsVal ci : Int) }

/-- The segment after the last `/` (the regex starts with `.*/`, so at least
one slash is required). -/
def lastSlashSeg (cs : List Char) : Option (List Char) :=
  if '/' ∈ cs then Option.some (cs.reverse.takeWhile (fun c => c ≠ '/')).reverse
  else Option.none

/-- Greedy choice of the `run_name` group: `([^/]*)` backtracks from the
right, so the rightmost underscore whose tail matches the rigid grammar
wins.  Returns `(run_name, tail groups)`. -/
def splitRunName (seg : List Char) : Option (List Char × CfgTailGroups) :=
  ((List.range seg.length).reverse.filterMap fun i =>
    if seg.get? i = Option.some '_' then
      (parseCfgTail (seg.drop (i + 1))).map fun g => (seg.take i, g)
    else Option.none).head?

/-- Model of `_reps[rep] if rep else None`: an unknown uppercase tag is a `KeyError`
from the dictionary lookup. -/
def repOfTag (t : Option (List Char)) : Except PyErr (Option String) :=
  match t with
  | Option.none => Except.ok Option.none
  | Option.some caps =>
    match repsTable.lookup (String.mk caps) with
    | Option.some full => Except.ok (Option.some full)
    | Option.none => Except.error PyErr.keyError

/-- Model of `int(Nf)`: the optional group may be `None`, and `int(None)` raises
`TypeError`. -/
def nfOfGroup (o : Option Int) : Except PyErr Int :=
  match o with
  | Option.some n => Except.ok n
  | Option.none => Except.error PyErr.typeError

/-- Model of `parse_cfg_filename(filename)`.  A failed regex match leaves
`matched_filename = None` and `.groups()` raises `AttributeError`; an
unknown representation tag raises `KeyError` from the `_reps` lookup; a
filename without the optional `nf` group reaches `int(None)`, a
`TypeError`. -/
def parse_cfg_filename (cs : List Char) : Except PyErr CfgFileParams := do
  let seg ← pyE PyErr.attributeError (lastSlashSeg cs)
  let rg ← pyE PyErr.attributeError (splitRunName seg)
  let rep ← repOfTag rg.2.repTag
  let nf ← nfOfGroup rg.2.NfGroup
  Except.ok {
    run_name := String.mk rg.1, Nc := rg.2.Nc, rep := rep, Nf := nf,
    beta := rg.2.beta, mass := rg.2.mass, cfg_index := rg.2.cfg_index }

/-- The leading `([0-9]+)x([0-9]+)x([0-9]+)x([0-9]+)` match of a geometry
field (`re.match`, so anchored at the start; trailing characters are
allowed).  `Option.none` models the `AttributeError` from `.groups()` on a
failed match. -/
def geomParse (cs : List Char) : Option (Int × Int × Int × Int) := do
  let (d1, r) := takeDigits cs
  if d1 = [] then failure
  let r ← expectLit ['x'] r
  let (d2, r) := takeDigits r
  if d2 = [] then failure
  let r ← expectLit ['x'] r
  let (d3, r) := takeDigits r
  if d3 = [] then failure
  let r ← expectLit ['x'] r
  let (d4, _) := takeDigits r
  if d4 = [] then failure
  Option.some ((digitsVal d1 : Int), (digitsVal d2 : Int), (digitsVal d3 : Int), (digitsVal d4 : Int))

/-- Model of `get_representation(macros)`: strip the MACROS marker from the first
token, then return the lowered name from the first token starting with
`-DREPR_NAME`; `None` when no such token exists. -/
def get_representation (tokens : List (List Char)) : MVal :=
  let ms := pyReplace (tokens.headD []) "[SYSTEM][0]MACROS=".data [] :: tokens.tail
  match ms.find? (fun m => pyStartsWith m "-DREPR_NAME".data) with
  | Option.some m =>
    MVal.str (String.mk (pyLower (pyStrip (pyReplace m "-DREPR_NAME=\"REPR_".data []) ['"'])))
  | Option.none => MVal.none

/-- The geometry branch of `add_metadata`. -/
def addGeomMetadata (md : MMap) (lc : List (List Char)) (t0 : List Char) :
    Except PyErr MMap :=
  if t0 == "[GEOMETRY][0]Global".data || t0 == "[GEOMETRY_INIT][0]Global".data ||
      t0 == "[MAIN][0]global".data then do
    let t3 ← pyIx lc 3
    let g ← pyE PyErr.attributeError (geomParse t3)
    Except.ok (minsert (minsert (minsert (minsert md "NT" (MVal.int g.1)) "NX" (MVal.int g.2.1))
      "NY" (MVal.int g.2.2.1)) "NZ" (MVal.int g.2.2.2))
  else Except.ok md

/-- The valence-mass branch of `add_metadata`: accumulate an ordered,
deduplicated list.  An existing `valence_masses` entry is a float list; the
fallback arm is unreachable. -/
def addMassMetadata (md : MMap) (lc : List (List Char)) (t0 : List Char) :
    Except PyErr MMap :=
  if pyStartsWith t0 "[MAIN][0]Mass[".data then do
    let t2 ← pyIx lc 2
    let v ← pyE PyErr.valueError (pyFloat t2)
    let cur := match mlookup md "valence_masses" with
      | Option.some (MVal.ratList xs) => xs
      | _ => []
    Except.ok (minsert md "valence_masses" (MVal.ratList (if v ∈ cur then cur else cur ++ [v])))
  else Except.ok md

/-- The fermion-representation branch of `add_metadata`. -/
def addFermionMetadata (md : MMap) (lc : List (List Char)) : Except PyErr MMap :=
  if lc.take 2 == ["[MAIN][0]Fermion".data, "representation:".data] then do
    let t2 ← pyIx lc 2
    Except.ok (minsert md "valence_representation" (MVal.str (String.mk (pyLower (t2.drop 5)))))
  else Except.ok md

/-- The gauge-group branch of `add_metadata` (`t1` is `line_contents[1]`,
already read — the read itself can raise on one-token lines). -/
def addGroupMetadata (md : MMap) (lc : List (List Char)) (t0 t1 : List Char) :
    Except PyErr MMap :=
  if t1 == "group:".data && (t0 == "[SYSTEM][0]Gauge".data || t0 == "[MAIN][0]Gauge".data) then do
    let t2 ← pyIx lc 2
    hsplit t2
  else Except.ok md
where
  /-- Model of `group_family, Nc = t2.strip(")").split("(")`: exactly two parts and
  an integer, else `ValueError`. -/
  hsplit (t2 : List Char) : Except PyErr MMap :=
    match pySplitOn (pyStrip t2 [')']) '(' with
    | [fam, ncs] => do
      let n ← pyE PyErr.valueError (pyInt ncs)
      Except.ok (minsert (minsert md "group_family" (MVal.str (String.mk fam))) "Nc" (MVal.int n))
    | _ => Except.error PyErr.valueError

/-- Model of `add_metadata(metadata, line_contents)` for a non-empty token list.
Returns the updated dictionary; raises where the Python raises (an
`IndexError` reading `line_contents[1]` on one-token lines, an
`AttributeError` on a geometry line whose fourth token does not match the
geometry pattern, a `ValueError` from `float`/`int`/unpacking).  The
`line_contents[1] == "group:"` comparison is evaluated before the list
membership test, so it comes before the MACROS branch. -/
def add_metadata (md : MMap) (lc : List (List Char)) : Except PyErr MMap := do
  let t0 := lc.headD []
  let md ← addGeomMetadata md lc t0
  let md ← addMassMetadata md lc t0
  let md ← addFermionMetadata md lc
  let t1 ← pyIx lc 1
  let md ← addGroupMetadata md lc t0 t1
  let md :=
    if pyStartsWith t0 "[SYSTEM][0]MACROS=".data then
      minsert md "valence_representation" (get_representation lc)
    else md
  Except.ok md

/-- The character loop
`for flag in line: if flag.startswith("-DREPR_"): run_repr = ...; continue`
followed by the `for`/`else` clause `else: run_repr = None`.  Iterating a
string yields single characters, which never carry the 7-character tag, and
since the loop never executes `break`, the `else` clause always runs and
resets `run_repr` to `None`. -/
def scanFlags : List Char → Option (List Char) → Option (List Char)
  | [], _ => Option.none
  | c :: rest, rr =>
    scanFlags rest
      (if pyStartsWith [c] "-DREPR_".data then Option.some (pyLower ([c].drop 7)) else rr)

/-- The run-level MACROS check of `read_correlators_hirep`:
`if line[0].startswith("[SYSTEM][0]MACROS="): ...`.  Note `line[0]` is the
first character of the raw line, not the first token. -/
def updateRunRepr (rr : Option (List Char)) (cs : List Char) : Option (List Char) :=
  if pyStartsWith (cs.take 1) "[SYSTEM][0]MACROS=".data then scanFlags cs rr else rr

/-- The source-type detection of the Hirep `add_row`: when column 5 is not
numeric it is a channel name, so the source type is the explicit token,
removed from the list by `split_line.pop(3)`; otherwise the default label
is used and the list is unchanged. -/
def hirepSourceType (lc : List (List Char)) (t5 : List Char) :
    Except PyErr (String × List (List Char)) :=
  match pyFloat t5 with
  | Option.none => do
    let t3 ← pyIx lc 3
    Except.ok (String.mk t3, lc.take 3 ++ lc.drop 4)
  | Option.some _ => Except.ok (("DEFAULT_SEMWALL" : String), lc)

/-- Model of `add_row(ensemble, split_line, stream_name, cfg_index)` of the Hirep
reader. -/
def hirep_add_row (ens : CorrelatorEnsemble ℚ) (lc : List (List Char))
    (stream_name : String) (cfg_index : Int) : Except PyErr (CorrelatorEnsemble ℚ) := do
  let t2 ← pyIx lc 2
  let valence_mass ← pyE PyErr.valueError (pyFloat (t2.drop 5))
  let t5 ← pyIx lc 5
  let sl ← hirepSourceType lc t5
  let t3 ← pyIx sl.2 3
  let t4 ← pyIx sl.2 4
  let correlator ← (sl.2.drop 5).mapM (fun t => pyE PyErr.valueError (pyFloat t))
  ens.append
    { stream_name := stream_name, cfg_index := cfg_index,
      source_type := sl.1, connection_type := String.mk t3,
      channel := String.mk t4.dropLast, valence_mass := valence_mass,
      correlator := correlator }

/-- Parser state carried across lines by `read_correlators_hirep`:
the metadata dictionary, the `(run_name, cfg_index)` seen-set, the
`run_repr` variable, the current `(run_name, cfg_index)` assignment (absent
before the first configuration-read line: using it then is a `NameError`),
the ensemble under construction, and counters for the two classes of logged
warnings (possible-duplicate and metadata-consistency). -/
structure HirepState where
  metadata : MMap := []
  read_cfgs : List (String × Int) := []
  run_repr : Option (List Char) := Option.none
  cur : Option (String × Int) := Option.none
  ens : CorrelatorEnsemble ℚ := CorrelatorEnsemble.new
  dup_warnings : Nat := 0
  meta_warnings : Nat := 0
deriving DecidableEq

/-- The representation-resolution step of the configuration-read branch:
`if rep is None: rep = run_repr`
`elif run_repr is not None and repr != run_repr: raise ValueError(...)`.
In the elif, `repr` is the Python builtin function (a typo for `rep`),
which is unequal to any string, so the condition reduces to
`run_repr is not None`. -/
def resolveRep (rep : Option String) (run_repr : Option (List Char)) :
    Except PyErr (Option String) :=
  match rep with
  | Option.none => Except.ok (run_repr.map String.mk)
  | Option.some r =>
    if run_repr.isSome then Except.error PyErr.representationMismatch
    else Except.ok (Option.some r)

/-- The configuration-read branch of the Hirep loop body, after the
`[IO][0]Configuration ... read` test has succeeded. -/
def hirepCfgBranch (st : HirepState) (lc : List (List Char)) : Except PyErr HirepState := do
  let t1 ← pyIx lc 1
  let p ← parse_cfg_filename ((t1.drop 1).dropLast)
  let rep ← resolveRep p.rep st.run_repr
  let repVal := match rep with
    | Option.some s => MVal.str s
    | Option.none => MVal.none
  let md := add_cfg_metadata st.metadata p.Nc repVal p.Nf p.beta p.mass
  let dup := (p.run_name, p.cfg_index) ∈ st.read_cfgs
  Except.ok { st with
    metadata := md.1,
    meta_warnings := st.meta_warnings + md.2,
    dup_warnings := st.dup_warnings + (if dup then 1 else 0),
    cur := Option.some (p.run_name, p.cfg_index) }

/-- The non-configuration-read part of the Hirep loop body: `add_metadata`,
then the `[MAIN][0]conf` data-line handling (which records the current
`(run_name, cfg_index)` in the seen-set and appends the row). -/
def hirepDataBranch (st : HirepState) (lc : List (List Char)) : Except PyErr HirepState := do
  let md ← add_metadata st.metadata lc
  if lc.headD [] == "[MAIN][0]conf".data then
    match st.cur with
    | Option.none => Except.error PyErr.nameError
    | Option.some (rn, ci) => do
      let ens ← hirep_add_row st.ens lc rn ci
      Except.ok { st with
        metadata := md,
        read_cfgs := if (rn, ci) ∈ st.read_cfgs then st.read_cfgs else st.read_cfgs ++ [(rn, ci)],
        ens := ens }
  else Except.ok { st with metadata := md }

/-- The dispatch of one non-blank Hirep line (after the `run_repr` update):
the `line_contents[0] == "[IO][0]Configuration" and line_contents[2] ==
"read"` test (short-circuit, so `line_contents[2]` is only read — and can
only raise — when the first token matches), then the matching branch. -/
def hirepLineBody (st : HirepState) (lc : List (List Char)) : Except PyErr HirepState :=
  match (if lc.headD [] == "[IO][0]Configuration".data then
            (pyIx lc 2).map (fun t2 => t2 == "read".data)
          else Except.ok false) with
  | Except.error e => Except.error e
  | Except.ok true => hirepCfgBranch st lc
  | Except.ok false => hirepDataBranch st lc

/-- One line of the `read_correlators_hirep` loop. -/
def hirepStep (st : HirepState) (line : String) : Except PyErr HirepState :=
  match pySplitWs line.data with
  | [] => Except.ok st
  | t0 :: ts =>
    hirepLineBody { st with run_repr := updateRunRepr st.run_repr line.data } (t0 :: ts)

/-- The whole line loop of `read_correlators_hirep`. -/
def hirepIngest (lines : List String) : Except PyErr HirepState :=
  lines.foldlM hirepStep {}

/-- Model of `read_correlators_hirep`: the line loop, then `freeze`.  The final
`is_consistent` check only logs and does not change the result. -/
def read_correlators_hirep (lines : List String) : Except PyErr HirepState := do
  let st ← hirepIngest lines
  let ens ← st.ens.freeze
  Except.ok { st with ens := ens }

/-! ## Flexlatsim reader (`readers/read_flexlatsim.py`) -/

/-- The fixed raw-channel translation table `channels`. -/
def flexChannels : List (String × String) :=
  [("AA", "AA"), ("AP", "AP"), ("AV0", "AV0"), ("V0P", "V0P"), ("V0V0", "V0V0"),
   ("pscalar", "g5"), ("pvector", "pvector"), ("scalar", "id"), ("vector", "gk"),
   ("dsapcorr", "dsapcorr"), ("GGCorrTr1", "GGCorrTr1"), ("GGCorrTr4", "GGCorrTr4"),
   ("WICorr1tr1", "WICorr1tr1"), ("WICorr1tr4", "WICorr1tr4"),
   ("WICorr2tr1", "WICorr2tr1"), ("WICorr2tr4", "WICorr2tr4"),
   ("WICorr3tr1", "WICorr3tr1"), ("WICorr3tr4", "WICorr3tr4")]

/-- The fourth-field values that cause the line to be skipped. -/
def flexSkipFields : List (List Char) :=
  ["total_inviter".data, "source_t".data, "leveli".data, "levelj".data,
   "itpropagator".data, "JN1".data, "source".data]

/-- The per-category column layout: time-index and value column positions,
keyed by the raw channel label prefix. -/
def flexColumns (state : List Char) : Nat × Nat :=
  if pyStartsWith state "GGCorrTr".data then (8, 10)
  else if pyStartsWith state "WICorr".data then (5, 7)
  else (7, 9)

/-- Parser state carried across lines by `read_correlators_flexlatsim`.
`t_index` starts undefined in the Python and is always assigned (to 0) at
the first accepted line, because a fresh trajectory differs from
`current_trajectory = None`; the initial 0 here is never read before
that. -/
structure FlexState where
  current_trajectory : Option Int := Option.none
  current_state : Option String := Option.none
  correlator_values : List ℚ := []
  t_index : Int := 0
  read_cfgs : List (String × Int × String) := []
  ens : CorrelatorEnsemble ℚ := CorrelatorEnsemble.new
  warnings : Nat := 0
deriving DecidableEq

/-- Model of `add_row(ensemble, read_cfgs, trajectory, state, stream_name,
valence_mass, raw_correlator)` of the Flexlatsim reader: record the triple
in the seen-set, translate the raw channel label (`channels[state]`, a
`KeyError` on an unrecognized label), and append.  Flushes only happen with
a current trajectory and state on record, so the `None` case is
unreachable; it is mapped to the `TypeError` such a Python call would
eventually produce. -/
def flex_add_row (ens : CorrelatorEnsemble ℚ) (read_cfgs : List (String × Int × String))
    (trajectory : Option Int) (state : Option String) (stream_name : String)
    (valence_mass : ℚ) (raw : List ℚ) :
    Except PyErr (CorrelatorEnsemble ℚ × List (String × Int × String)) := do
  match trajectory, state with
  | Option.some traj, Option.some stt => do
    let cfgs := if (stream_name, traj, stt) ∈ read_cfgs then read_cfgs
      else read_cfgs ++ [(stream_name, traj, stt)]
    let ch ← pyE PyErr.keyError (flexChannels.lookup stt)
    let ens ← ens.append
      { stream_name := stream_name, cfg_index := traj, source_type := "POINT",
        connection_type := "TRIPLET", channel := ch, valence_mass := valence_mass,
        correlator := raw }
    Except.ok (ens, cfgs)
  | _, _ => Except.error PyErr.typeError

/-- One line of the `read_correlators_flexlatsim` loop. -/
def flexStep (stream_name : String) (valence_mass : ℚ) (st : FlexState) (line : String) :
    Except PyErr FlexState :=
  let cs := line.data
  if ¬ pyStartsWith cs "(MM):".data then Except.ok st
  else
    let sl := pySplitOn cs ':'
    if sl.length < 3 then Except.ok st
    else match sl.get? 2 with
    | Option.none => Except.error PyErr.indexError
    | Option.some s2 =>
      if ¬ (s2 == "Meson_corr".data || s2 == "gluinoglue".data) then Except.ok st
      else match pyIx sl 3 with
      | Except.error e => Except.error e
      | Except.ok s3 =>
        if s3 ∈ flexSkipFields then Except.ok st
        else if pyContains (cs.drop 5) "(MM)".data then
          -- corrupt line containing a second sentinel: warn and skip
          Except.ok { st with warnings := st.warnings + 1 }
        else match pyInt (sl.getD 1 []) with
        | Option.none => Except.error PyErr.valueError
        | Option.some new_trajectory => do
          let new_state := String.mk s3
          -- trajectory change: flush any accumulated series, reset
          let st ←
            if Option.some new_trajectory ≠ st.current_trajectory then do
              let st ←
                if st.correlator_values ≠ [] then do
                  let (ens, cfgs) ← flex_add_row st.ens st.read_cfgs st.current_trajectory
                    st.current_state stream_name valence_mass st.correlator_values
                  pure { st with ens := ens, read_cfgs := cfgs }
                else pure st
              pure { st with
                current_trajectory := Option.some new_trajectory,
                t_index := 0, correlator_values := [] }
            else pure st
          -- state change: flush any accumulated series, reset
          let st ←
            if Option.some new_state ≠ st.current_state then do
              let st ←
                if st.correlator_values ≠ [] then do
                  let (ens, cfgs) ← flex_add_row st.ens st.read_cfgs st.current_trajectory
                    st.current_state stream_name valence_mass st.correlator_values
                  pure { st with ens := ens, read_cfgs := cfgs }
                else pure st
              pure { st with
                current_state := Option.some new_state,
                t_index := 0, correlator_values := [] }
            else pure st
          -- duplicate check: warn and skip the line
          if (stream_name, new_trajectory, new_state) ∈ st.read_cfgs then
            Except.ok { st with warnings := st.warnings + 1 }
          else do
            let (time_index, value_index) := flexColumns s3
            let ttok ← pyIx sl time_index
            -- the bare `try: int(...) except: breakpoint()` stops a debugger;
            -- the unguarded `int(...)` on the next line then raises ValueError
            let tk ← pyE PyErr.valueError (pyInt ttok)
            if tk ≠ st.t_index then Except.error PyErr.timeIndexInconsistent
            else do
              let vtok ← pyIx sl value_index
              let v ← pyE PyErr.valueError (pyFloat vtok)
              Except.ok { st with
                correlator_values := st.correlator_values ++ [v],
                t_index := st.t_index + 1 }

/-- Model of `read_correlators_flexlatsim` on a fresh ensemble (`correlators=None`,
`freeze=True`, no extra metadata): the line loop, the `for`/`else` final
flush (the loop never breaks, so the `else` clause always runs), then
`freeze`.  The final `is_consistent` check only logs. -/
def read_correlators_flexlatsim (lines : List String) (valence_mass : ℚ)
    (stream_name : String) : Except PyErr FlexState := do
  let st ← lines.foldlM (flexStep stream_name valence_mass) {}
  let st ←
    if st.correlator_values ≠ [] then do
      let (ens, cfgs) ← flex_add_row st.ens st.read_cfgs st.current_trajectory
        st.current_state stream_name valence_mass st.correlator_values
      pure { st with ens := ens, read_cfgs := cfgs }
    else pure st
  let ens ← st.ens.freeze
  Except.ok { st with ens := ens }

/-! ## Hadrons reader (`readers/read_hadrons.py`) -/

/-- An XML element: tag, text content, child elements. -/
inductive XElem where
  | mk (tag : String) (text : String) (children : List XElem)

/-- The element tag. -/
def XElem.tag : XElem → String
  | XElem.mk t _ _ => t

/-- The element text. -/
def XElem.text : XElem → String
  | XElem.mk _ t _ => t

/-- The child elements. -/
def XElem.children : XElem → List XElem
  | XElem.mk _ _ cs => cs

/-- Model of `pair_to_complex(value)`: strip surrounding parentheses, split on the
comma, convert both halves with `float`, unpack into exactly two values
(`real, imag = map(float, ...)`); any failure is a `ValueError`. -/
def pair_to_complex (text : String) : Except PyErr (ℚ × ℚ) :=
  match pySplitOn (pyStrip text.data ['(', ')']) ',' with
  | [a, b] => do
    let re ← pyE PyErr.valueError (pyFloat a)
    let im ← pyE PyErr.valueError (pyFloat b)
    Except.ok (re, im)
  | _ => Except.error PyErr.valueError

/-- Model of `re.search("([0-9]+).xml$", filepath.name)`: the name must end in
`xml` preceded by one arbitrary character, itself preceded by at least one
digit; the group is the maximal digit run there (leftmost match start).
`Option.none` models the `AttributeError` from `.groups()` on `None`. -/
def trailingCfgIndex (cs : List Char) : Option Int :=
  match cs.reverse with
  | 'l' :: 'm' :: 'x' :: _ :: rest =>
    let ds := rest.takeWhile Char.isDigit
    if ds = [] then Option.none else Option.some (digitsVal ds.reverse : Int)
  | _ => Option.none

/-- The child loop of `read_single_mres_file`: a `mass` element sets the
local `valence_mass` for the following channels (and produces no record);
any other element is a channel, whose children become complex samples.
Referencing `valence_mass` before any `mass` element has set it is an
`UnboundLocalError` (modelled `nameError`); the values list is built before
the `Correlator` constructor evaluates `valence_mass`, so `ValueError`s
from the pairs come first, as in Python. -/
def mresLoop (cfg_index : Int) : List XElem → Option ℚ → CorrelatorEnsemble (ℚ × ℚ) →
    Except PyErr (CorrelatorEnsemble (ℚ × ℚ))
  | [], _, ens => Except.ok ens
  | e :: rest, vm, ens =>
    if e.tag == "mass" then do
      let m ← pyE PyErr.valueError (pyFloat e.text.data)
      mresLoop cfg_index rest (Option.some m) ens
    else do
      let values ← e.children.mapM (fun ve => pair_to_complex ve.text)
      let m ← pyE PyErr.nameError vm
      let ens ← ens.append
        { stream_name := "run1", cfg_index := cfg_index, source_type := "DEFAULT_SEMWALL",
          connection_type := "TRIPLET", channel := e.tag, valence_mass := m,
          correlator := values }
      mresLoop cfg_index rest vm ens

/-- Model of `read_single_mres_file(filepath, ensemble)`: parse the configuration
index from the filename, then run the child loop over the children of the
first element of the document root. -/
def read_single_mres_file (name : String) (root0 : List XElem)
    (ens : CorrelatorEnsemble (ℚ × ℚ)) : Except PyErr (CorrelatorEnsemble (ℚ × ℚ)) := do
  let cfg_index ← pyE PyErr.attributeError (trailingCfgIndex name.data)
  mresLoop cfg_index root0 Option.none ens

/-! ## Helper lemmas -/

theorem corrLE_trans {V : Type} (a b c : Correlator V) (h1 : corrLE a b = true)
    (h2 : corrLE b c = true) : corrLE a c = true := by
  unfold corrLE at h1 h2 ⊢
  exact decide_eq_true (le_trans (of_decide_eq_true h1) (of_decide_eq_true h2))

theorem corrLE_total {V : Type} (a b : Correlator V) : corrLE a b || corrLE b a := by
  unfold corrLE
  rcases le_total (corrKey a) (corrKey b) with h | h
  · simp [decide_eq_true h]
  · simp [decide_eq_true h]

theorem mergeSort_corrLE_idem {V : Type} (l : List (Correlator V)) :
    (l.mergeSort corrLE).mergeSort corrLE = l.mergeSort corrLE :=
  List.mergeSort_of_sorted
    (List.sorted_mergeSort (fun a b c => corrLE_trans a b c) (fun a b => corrLE_total a b) l)

theorem mlookup_minsert (m : MMap) (k : String) (v : MVal) :
    mlookup (minsert m k v) k = Option.some v := by
  induction m with
  | nil => simp [minsert, mlookup]
  | cons p m ih =>
    by_cases hpk : p.1 == k
    · simp only [minsert, List.any_cons, hpk, Bool.true_or, if_true, List.map_cons]
      unfold mlookup
      rw [List.find?_cons_of_pos _ (by simp)]
      rfl
    · by_cases ham : m.any (fun q => q.1 == k)
      · have ih' : mlookup (m.map (fun q => if q.1 == k then (k, v) else q)) k = Option.some v := by
          simpa [minsert, ham] using ih
        simp only [minsert, List.any_cons, hpk, ham, Bool.false_or, if_true, List.map_cons,
          if_neg (by simpa using hpk)]
        simpa [mlookup, List.find?_cons, hpk] using ih'
      · have ih' : mlookup (m ++ [(k, v)]) k = Option.some v := by
          simpa [minsert, ham] using ih
        simp only [minsert, List.any_cons, hpk, ham, Bool.false_or, if_false, List.cons_append]
        simpa [mlookup, List.find?_cons, hpk] using ih'

theorem mContains_isSome (m : MMap) (k : String) :
    mContains m k = (mlookup m k).isSome := by
  induction m with
  | nil => simp [mContains, mlookup]
  | cons p m ih =>
    by_cases hpk : p.1 == k
    · simp [mContains, mlookup, List.find?_cons, hpk]
    · simpa [mContains, mlookup, List.find?_cons, hpk] using ih

theorem except_ok_bind {e a b : Type} (x : a) (f : a → Except e b) :
    (Except.ok x >>= f) = f x := rfl

/-! ## Claim theorems -/

/-- C7: for every collection on which `freeze` has been called (the frozen
flag is set) and for every record, a subsequent `append` of that record
fails with the frozen-state error. -/
theorem append_after_freeze_fails {V : Type} (e : CorrelatorEnsemble V) (c : Correlator V)
    (h : e.frozen = true) : e.append c = Except.error PyErr.frozenAppend := by
  unfold CorrelatorEnsemble.append
  simp [h]

/-- Witness for C7 at a concrete frozen ensemble and record. -/
theorem append_after_freeze_fails_witness :
    CorrelatorEnsemble.append
      { correlators := [], metadata := [], frozen := true }
      { stream_name := "s", cfg_index := 1, source_type := "src", connection_type := "TRIPLET",
        channel := "g5", valence_mass := mkRat 1 2, correlator := [(1 : ℚ)] } =
      Except.error PyErr.frozenAppend :=
  append_after_freeze_fails _ _ rfl

/-- C10: freezing is idempotent — if `freeze` produced the (necessarily
non-empty) frozen collection `e'`, then calling `freeze` again on `e'` does
not raise and returns `e'` itself: the records, their order, the metadata
and the frozen flag are unchanged.  (Re-sorting the already-sorted table
with the stable multi-column lexicographic sort is the identity.) -/
theorem freeze_second_call_noop {V : Type} (e e' : CorrelatorEnsemble V)
    (h : e.freeze = Except.ok e') : e'.freeze = Except.ok e' := by
  unfold CorrelatorEnsemble.freeze at h
  cases hc : e.correlators with
  | nil => rw [hc] at h; simp at h
  | cons c rest =>
    rw [hc] at h
    simp only [Except.ok.injEq] at h
    subst h
    unfold CorrelatorEnsemble.freeze
    cases hm : (c :: rest).mergeSort corrLE with
    | nil =>
      have hlen := congrArg List.length hm
      simp [List.length_mergeSort] at hlen
    | cons d ds =>
      simp only [hm]
      rw [← hm, mergeSort_corrLE_idem, hm]

/-- Witness for C10: a concrete one-record ensemble, frozen once, then
frozen again. -/
theorem freeze_second_call_noop_witness :
    CorrelatorEnsemble.freeze
      { correlators := [{
          stream_name := "s", cfg_index := 1, source_type := "src",
          connection_type := "TRIPLET", channel := "g5", valence_mass := mkRat 1 2,
          correlator := [(1 : ℚ)] }], metadata := [], frozen := true } =
      Except.ok {
        correlators := [{
          stream_name := "s", cfg_index := 1, source_type := "src",
          connection_type := "TRIPLET", channel := "g5", valence_mass := mkRat 1 2,
          correlator := [(1 : ℚ)] }], metadata := [], frozen := true } :=
  freeze_second_call_noop
    { correlators := [{
        stream_name := "s", cfg_index := 1, source_type := "src",
        connection_type := "TRIPLET", channel := "g5", valence_mass := mkRat 1 2,
        correlator := [(1 : ℚ)] }], metadata := [], frozen := false } _
    (by simp [CorrelatorEnsemble.freeze])

/-- C2 counterexample: `append` does not store a defensive copy when the
caller passes an existing NumPy array.  A record whose correlator is the
array at address 0 is accepted; the stored address is the same object, and
an in-place mutation by the caller afterwards changes the values observable
through the collection (from `[[0]]` to `[[1]]`). -/
theorem append_defensive_copy_cex :
    HeapEnsemble.appendH { arrays := [[0]] } { correlators := [], frozen := false }
      (PySeq.array 0) =
      Except.ok ({ arrays := [[0]] }, { correlators := [0], frozen := false }) ∧
    HeapEnsemble.observed { arrays := [[0]] } { correlators := [0], frozen := false } = [[0]] ∧
    HeapEnsemble.observed (ArrayStore.write { arrays := [[0]] } 0 [1])
      { correlators := [0], frozen := false } = [[1]] := by
  decide

/-- C2 amended: `append` stores a fresh copy when the caller passes a plain
(non-array) sequence: the sequence of the accepted record is stored at a fresh
address, and mutating any array object that existed before the call leaves
the stored values equal to their values at append time.  (When the caller
passes an existing NumPy array, `np.asarray` returns the same object and
in-place mutation remains observable, as the counterexample shows.) -/
theorem append_copies_plain_lists (s : ArrayStore) (e : HeapEnsemble) (xs : List ℚ)
    (s' : ArrayStore) (e' : HeapEnsemble) (a : Nat) (v : List ℚ)
    (h : HeapEnsemble.appendH s e (PySeq.list xs) = Except.ok (s', e'))
    (ha : a < s.arrays.length) :
    e'.correlators = e.correlators ++ [s.arrays.length] ∧
    (s'.write a v).read s.arrays.length = xs := by
  unfold HeapEnsemble.appendH at h
  have hread : ((ArrayStore.mk (s.arrays ++ [xs])).write a v).read s.arrays.length = xs := by
    unfold ArrayStore.write ArrayStore.read
    rw [List.get?_eq_getElem?, List.getElem?_set_ne (Nat.ne_of_lt ha),
      List.getElem?_append_right (Nat.le_refl _)]
    simp
  split at h
  · simp at h
  · split at h
    · rename_i heq
      simp only [npAsarray, ArrayStore.alloc, Except.ok.injEq, Prod.mk.injEq] at h
      obtain ⟨hs, he⟩ := h
      subst hs; subst he
      exact ⟨by simp [heq], hread⟩
    · rename_i a0 rest heq
      split at h
      · simp only [npAsarray, ArrayStore.alloc, Except.ok.injEq, Prod.mk.injEq] at h
        obtain ⟨hs, he⟩ := h
        subst hs; subst he
        exact ⟨by simp [heq], hread⟩
      · simp at h

/-- Witness for the amended C2 theorem: appending the plain list `[5]` to a
store already holding one array; mutating the pre-existing array at address
0 leaves the stored copy readable as `[5]`. -/
theorem append_copies_plain_lists_witness :
    ({ correlators := [1], frozen := false } : HeapEnsemble).correlators = [] ++ [1] ∧
    (ArrayStore.write { arrays := [[9], [5]] } 0 [7]).read 1 = [5] :=
  append_copies_plain_lists { arrays := [[9]] } { correlators := [], frozen := false } [5]
    { arrays := [[9], [5]] } { correlators := [1], frozen := false } 0 [7]
    (by decide) (by decide)

/-- C3 counterexample: the metadata rule is not first-write-wins.  With
`Nc` already recorded, a first configuration-read records `beta = 2.0`; a
second configuration-read carrying the conflicting `beta = 2.25` logs
exactly one warning but the stored value becomes the **later** value, not
the first. -/
theorem hirep_metadata_first_write_cex :
    mlookup (add_cfg_metadata
        (add_cfg_metadata [("Nc", MVal.int 2)] 2 (MVal.str "fundamental") 2
          (mkRat 2 1) (mkRat (-1) 2)).1
        2 (MVal.str "fundamental") 2 (mkRat 9 4) (mkRat (-1) 2)).1 "beta" =
      Option.some (MVal.rat (mkRat 9 4)) ∧
    mlookup (add_cfg_metadata
        (add_cfg_metadata [("Nc", MVal.int 2)] 2 (MVal.str "fundamental") 2
          (mkRat 2 1) (mkRat (-1) 2)).1
        2 (MVal.str "fundamental") 2 (mkRat 9 4) (mkRat (-1) 2)).1 "beta" ≠
      Option.some (MVal.rat (mkRat 2 1)) ∧
    (add_cfg_metadata
        (add_cfg_metadata [("Nc", MVal.int 2)] 2 (MVal.str "fundamental") 2
          (mkRat 2 1) (mkRat (-1) 2)).1
        2 (MVal.str "fundamental") 2 (mkRat 9 4) (mkRat (-1) 2)).2 = 1 := by
  decide

/-- C3 amended: the dynamical-sector metadata rule is last-write-wins with
a conflict warning: every call of `add_single_consistent_metadatum` stores
the new value unconditionally, and the "values are not consistent!" warning
is logged exactly when the new value is truthy and a different value was
already stored under that name. -/
theorem metadata_last_write_wins (md : MMap) (name : String) (v : MVal) :
    mlookup (add_single_consistent_metadatum md name v).1 name = Option.some v ∧
    ((add_single_consistent_metadatum md name v).2 = true ↔
      v.truthy = true ∧ ∃ old, mlookup md name = Option.some old ∧ old ≠ v) := by
  constructor
  · exact mlookup_minsert md name v
  · unfold add_single_consistent_metadatum
    simp only [Bool.and_eq_true, mContains_isSome, Bool.not_eq_true']
    constructor
    · rintro ⟨⟨ht, hs⟩, hne⟩
      rcases Option.isSome_iff_exists.mp hs with ⟨old, hold⟩
      refine ⟨ht, old, hold, ?_⟩
      intro hemv
      rw [hold, hemv] at hne
      simp at hne
    · rintro ⟨ht, old, hold, hne⟩
      refine ⟨⟨ht, by simp [hold]⟩, ?_⟩
      rw [hold]
      simpa using hne

theorem appendAll_ok {V : Type} (n : Nat) (rs : List (Correlator V)) :
    ∀ (e : CorrelatorEnsemble V), e.frozen = false →
      (∀ b ∈ e.correlators, b.correlator.length = n) →
      (∀ b ∈ rs, b.correlator.length = n) →
      e.appendAll rs = Except.ok { e with correlators := e.correlators ++ rs } := by
  induction rs with
  | nil =>
    intro e _ _ _
    simp only [CorrelatorEnsemble.appendAll, List.foldlM_nil, List.append_nil]
    rfl
  | cons r rs ih =>
    intro e hfr he hrs
    have happ : e.append r = Except.ok { e with correlators := e.correlators ++ [r] } := by
      unfold CorrelatorEnsemble.append
      rw [hfr]
      simp only [Bool.false_eq_true, if_false]
      cases hc : e.correlators with
      | nil => simp
      | cons c0 rest =>
        have hcond : r.correlator.length = c0.correlator.length :=
          (hrs r (by simp)).trans (he c0 (by rw [hc]; simp)).symm
        simp [hcond]
    have hrec := ih { e with correlators := e.correlators ++ [r] } hfr
      (by
        intro b hb
        rcases List.mem_append.mp hb with h | h
        · exact he b h
        · have hbr : b = r := by simpa using h
          exact hbr ▸ hrs r (by simp))
      (fun b hb => hrs b (by simp [hb]))
    unfold CorrelatorEnsemble.appendAll at hrec ⊢
    rw [List.foldlM_cons, happ]
    show rs.foldlM CorrelatorEnsemble.append { e with correlators := e.correlators ++ [r] } = _
    rw [hrec]
    simp

/-- C1: for every sequence of appends whose records all carry equal-length
correlator series, followed by `freeze`, a `get` whose four-field exact
criteria match exactly one appended record returns precisely that record's
correlator series, unmodified, keyed by its `(stream_name, cfg_index)`. -/
theorem roundtrip_single_record (rs : List (Correlator ℚ)) (r : Correlator ℚ)
    (hlen : ∀ a ∈ rs, ∀ b ∈ rs, a.correlator.length = b.correlator.length)
    (huniq : rs.filter (fun c => (exactCriteria r).sat c) = [r]) :
    roundTrip rs (exactCriteria r) =
      Except.ok [((r.stream_name, r.cfg_index), r.correlator)] := by
  have hr_mem : r ∈ rs := List.mem_of_mem_filter (l := rs) (by rw [huniq]; simp)
  have happ := appendAll_ok (V := ℚ) r.correlator.length rs CorrelatorEnsemble.new rfl
    (by intro b hb; simp [CorrelatorEnsemble.new] at hb)
    (fun b hb => hlen b hb r hr_mem)
  cases hrs : rs with
  | nil => rw [hrs] at hr_mem; simp at hr_mem
  | cons r0 rs' =>
    rw [hrs] at happ
    have hfilter : ((r0 :: rs').mergeSort corrLE).filter (fun c => (exactCriteria r).sat c) = [r] := by
      have hperm := (List.mergeSort_perm (r0 :: rs') corrLE).filter
        (fun c => (exactCriteria r).sat c)
      rw [show (r0 :: rs').filter (fun c => (exactCriteria r).sat c) = [r] from hrs ▸ huniq]
        at hperm
      exact List.perm_singleton.mp hperm
    have h1 : roundTrip (r0 :: rs') (exactCriteria r) =
        CorrelatorEnsemble.get
          { correlators := (r0 :: rs').mergeSort corrLE, metadata := [], frozen := true }
          (exactCriteria r) := by
      unfold roundTrip
      rw [happ]
      rfl
    rw [h1]
    unfold CorrelatorEnsemble.get
    simp [hfilter, multiValued]

/-- Witness for C1: a two-record ensemble; the exact criteria of the first
record return exactly its series, keyed by its stream and configuration. -/
theorem roundtrip_single_record_witness :
    roundTrip
      [{ stream_name := "s", cfg_index := 1, source_type := "src", connection_type := "TRIPLET",
         channel := "g5", valence_mass := mkRat 1 2, correlator := [(1 : ℚ), 2] },
       { stream_name := "s", cfg_index := 2, source_type := "src", connection_type := "TRIPLET",
         channel := "g1", valence_mass := mkRat 1 2, correlator := [(3 : ℚ), 4] }]
      (exactCriteria
        { stream_name := "s", cfg_index := 1, source_type := "src", connection_type := "TRIPLET",
          channel := "g5", valence_mass := mkRat 1 2, correlator := [(1 : ℚ), 2] }) =
      Except.ok [(("s", 1), [(1 : ℚ), 2])] :=
  roundtrip_single_record _ _ (by decide) (by decide)

/-- C6: on a frozen collection, when the filtered subset retains two or
more distinct `channel` values, `get` fails with the ambiguous-selection
error; when each of the four disambiguating fields collapses to exactly one
distinct value, `get` succeeds and returns the filtered rows. -/
theorem get_ambiguous_or_ok {V : Type} (e : CorrelatorEnsemble V) (cr : Criteria)
    (hfr : e.frozen = true) :
    (1 < ((e.correlators.filter (fun c => cr.sat c)).map (fun c => c.channel)).dedup.length →
      isMultipleValuesError (e.get cr) = true) ∧
    ((((e.correlators.filter (fun c => cr.sat c)).map (fun c => c.source_type)).dedup.length = 1 ∧
      ((e.correlators.filter (fun c => cr.sat c)).map (fun c => c.connection_type)).dedup.length = 1 ∧
      ((e.correlators.filter (fun c => cr.sat c)).map (fun c => c.channel)).dedup.length = 1 ∧
      ((e.correlators.filter (fun c => cr.sat c)).map (fun c => c.valence_mass)).dedup.length = 1) →
      e.get cr = Except.ok ((e.correlators.filter (fun c => cr.sat c)).map
        (fun c => ((c.stream_name, c.cfg_index), c.correlator)))) := by
  constructor
  · intro hch
    unfold CorrelatorEnsemble.get
    rw [hfr]
    by_cases h1 : multiValued ((e.correlators.filter (fun c => cr.sat c)).map
        (fun c => c.source_type))
    · simp [h1, isMultipleValuesError]
    · by_cases h2 : multiValued ((e.correlators.filter (fun c => cr.sat c)).map
          (fun c => c.connection_type))
      · simp [h1, h2, isMultipleValuesError]
      · have h3 : multiValued ((e.correlators.filter (fun c => cr.sat c)).map
            (fun c => c.channel)) = true := decide_eq_true hch
        simp [h1, h2, h3, isMultipleValuesError]
  · rintro ⟨hs, hc, hch, hv⟩
    unfold CorrelatorEnsemble.get
    rw [hfr]
    have m1 : multiValued ((e.correlators.filter (fun c => cr.sat c)).map
        (fun c => c.source_type)) = false := by unfold multiValued; simp [hs]
    have m2 : multiValued ((e.correlators.filter (fun c => cr.sat c)).map
        (fun c => c.connection_type)) = false := by unfold multiValued; simp [hc]
    have m3 : multiValued ((e.correlators.filter (fun c => cr.sat c)).map
        (fun c => c.channel)) = false := by unfold multiValued; simp [hch]
    have m4 : multiValued ((e.correlators.filter (fun c => cr.sat c)).map
        (fun c => c.valence_mass)) = false := by unfold multiValued; simp [hv]
    simp [m1, m2, m3, m4]

/-- Witness for C6: with two channels left after filtering, `get` fails
with the ambiguous-selection error; with one record it succeeds. -/
theorem get_ambiguous_or_ok_witness :
    isMultipleValuesError (CorrelatorEnsemble.get
      { correlators :=
          [{ stream_name := "s", cfg_index := 1, source_type := "src",
             connection_type := "TRIPLET", channel := "g5", valence_mass := mkRat 1 2,
             correlator := [(1 : ℚ)] },
           { stream_name := "s", cfg_index := 1, source_type := "src",
             connection_type := "TRIPLET", channel := "g1", valence_mass := mkRat 1 2,
             correlator := [(2 : ℚ)] }],
        metadata := [], frozen := true } {}) = true ∧
    CorrelatorEnsemble.get
      { correlators :=
          [{ stream_name := "s", cfg_index := 1, source_type := "src",
             connection_type := "TRIPLET", channel := "g5", valence_mass := mkRat 1 2,
             correlator := [(1 : ℚ)] }],
        metadata := [], frozen := true } {} =
      Except.ok [(("s", 1), [(1 : ℚ)])] :=
  ⟨(get_ambiguous_or_ok _ {} rfl).1 (by decide),
   (get_ambiguous_or_ok _ {} rfl).2 (by decide)⟩

/-- C9 counterexample: the parse of an mres document is order-dependent.
In a document whose two channel elements precede the single mass element,
the first channel is processed while `valence_mass` is still unassigned,
and the parse fails with `UnboundLocalError` instead of appending two
records. -/
theorem mres_mass_order_cex :
    read_single_mres_file "mres_7.xml"
      [XElem.mk "g5" "" [XElem.mk "elem" "(1.0,0.0)" [], XElem.mk "elem" "(2.0,0.0)" []],
       XElem.mk "g1" "" [XElem.mk "elem" "(3.0,0.5)" [], XElem.mk "elem" "(4.0,0.0)" []],
       XElem.mk "mass" "0.5" []]
      CorrelatorEnsemble.new = Except.error PyErr.nameError := by
  decide

/-- C9 amended: for every mres-prefixed document whose scalar mass element
precedes its two channel elements (each holding two parseable
real/imaginary pairs), the parse appends exactly two records, both carrying
the mass parsed from the mass element and the configuration index parsed
from the trailing digits of the filename, each with a complex correlator of
length 2. -/
theorem mres_two_channel_records (name : String) (ci : Int) (mel c1 c2 : XElem) (m : ℚ)
    (z11 z12 z21 z22 : ℚ × ℚ)
    (hci : trailingCfgIndex name.data = Option.some ci)
    (hmt : mel.tag = "mass")
    (hmv : pyFloat mel.text.data = Option.some m)
    (h1t : c1.tag ≠ "mass") (h2t : c2.tag ≠ "mass")
    (h1c : c1.children.mapM (fun ve => pair_to_complex ve.text) = Except.ok [z11, z12])
    (h2c : c2.children.mapM (fun ve => pair_to_complex ve.text) = Except.ok [z21, z22]) :
    read_single_mres_file name [mel, c1, c2] CorrelatorEnsemble.new =
      Except.ok { correlators :=
        [{ stream_name := "run1", cfg_index := ci, source_type := "DEFAULT_SEMWALL",
           connection_type := "TRIPLET", channel := c1.tag, valence_mass := m,
           correlator := [z11, z12] },
         { stream_name := "run1", cfg_index := ci, source_type := "DEFAULT_SEMWALL",
           connection_type := "TRIPLET", channel := c2.tag, valence_mass := m,
           correlator := [z21, z22] }], metadata := [], frozen := false } := by
  have hb1 : (c1.tag == "mass") = false := beq_eq_false_iff_ne.mpr h1t
  have hb2 : (c2.tag == "mass") = false := beq_eq_false_iff_ne.mpr h2t
  have hbm : (mel.tag == "mass") = true := beq_iff_eq.mpr hmt
  unfold read_single_mres_file
  rw [hci]
  show mresLoop ci [mel, c1, c2] Option.none CorrelatorEnsemble.new = _
  unfold mresLoop
  rw [hbm]
  simp only [if_true]
  rw [hmv]
  show mresLoop ci [c1, c2] (Option.some m) CorrelatorEnsemble.new = _
  unfold mresLoop
  rw [hb1]
  simp only [Bool.false_eq_true, if_false]
  rw [h1c]
  show (do
    let m ← pyE PyErr.nameError (Option.some m)
    let ens ← CorrelatorEnsemble.new.append
      { stream_name := "run1", cfg_index := ci, source_type := "DEFAULT_SEMWALL",
        connection_type := "TRIPLET", channel := c1.tag, valence_mass := m,
        correlator := [z11, z12] }
    mresLoop ci [c2] (Option.some m) ens) = _
  show mresLoop ci [c2] (Option.some m)
    { correlators :=
        [{ stream_name := "run1", cfg_index := ci, source_type := "DEFAULT_SEMWALL",
           connection_type := "TRIPLET", channel := c1.tag, valence_mass := m,
           correlator := [z11, z12] }], metadata := [], frozen := false } = _
  unfold mresLoop
  rw [hb2]
  simp only [Bool.false_eq_true, if_false]
  rw [h2c]
  rfl

/-- Witness for the amended C9 theorem: a concrete well-ordered document. -/
theorem mres_two_channel_records_witness :
    read_single_mres_file "mres_7.xml"
      [XElem.mk "mass" "0.5" [],
       XElem.mk "g5" "" [XElem.mk "elem" "(1.0,0.0)" [], XElem.mk "elem" "(2.0,0.0)" []],
       XElem.mk "g1" "" [XElem.mk "elem" "(3.0,0.5)" [], XElem.mk "elem" "(4.0,0.0)" []]]
      CorrelatorEnsemble.new =
      Except.ok {
        correlators :=
          [{ stream_name := "run1", cfg_index := 7, source_type := "DEFAULT_SEMWALL",
             connection_type := "TRIPLET", channel := "g5", valence_mass := mkRat 1 2,
             correlator := [(mkRat 1 1, mkRat 0 1), (mkRat 2 1, mkRat 0 1)] },
           { stream_name := "run1", cfg_index := 7, source_type := "DEFAULT_SEMWALL",
             connection_type := "TRIPLET", channel := "g1", valence_mass := mkRat 1 2,
             correlator := [(mkRat 3 1, mkRat 1 2), (mkRat 4 1, mkRat 0 1)] }],
        metadata := [], frozen := false } :=
  mres_two_channel_records "mres_7.xml" 7 (XElem.mk "mass" "0.5" [])
    (XElem.mk "g5" "" [XElem.mk "elem" "(1.0,0.0)" [], XElem.mk "elem" "(2.0,0.0)" []])
    (XElem.mk "g1" "" [XElem.mk "elem" "(3.0,0.5)" [], XElem.mk "elem" "(4.0,0.0)" []])
    (mkRat 1 2) (mkRat 1 1, mkRat 0 1) (mkRat 2 1, mkRat 0 1)
    (mkRat 3 1, mkRat 1 2) (mkRat 4 1, mkRat 0 1)
    (by decide) rfl (by decide) (by decide) (by decide) (by decide) (by decide)

/-- C5: within a trajectory/state block, an accepted value line whose
parsed time index differs from the expected next index makes the parse fail
with the hard structural error.  The hypotheses say the line passes every
skip guard (sentinel, field count, category, skipped fields, corruption,
duplicate) and lies in the current block (same trajectory, same state), and
that its parsed time index `k` differs from the expected `t_index`. -/
theorem flex_time_skip_raises (sn : String) (vm : ℚ) (st : FlexState) (line : String)
    (T k : Int) (cat s3 ttok : List Char)
    (h0 : pyStartsWith line.data "(MM):".data = true)
    (hs2 : (pySplitOn line.data ':').get? 2 = Option.some cat)
    (hcat : (cat == "Meson_corr".data || cat == "gluinoglue".data) = true)
    (hs3 : (pySplitOn line.data ':').get? 3 = Option.some s3)
    (hskip : s3 ∉ flexSkipFields)
    (hcor : pyContains (line.data.drop 5) "(MM)".data = false)
    (htraj : pyInt ((pySplitOn line.data ':').getD 1 []) = Option.some T)
    (hcur : st.current_trajectory = Option.some T)
    (hst : st.current_state = Option.some (String.mk s3))
    (hdup : (sn, T, String.mk s3) ∉ st.read_cfgs)
    (httok : (pySplitOn line.data ':').get? (flexColumns s3).1 = Option.some ttok)
    (htk : pyInt ttok = Option.some k)
    (hne : k ≠ st.t_index) :
    flexStep sn vm st line = Except.error PyErr.timeIndexInconsistent := by
  rcases List.get?_eq_some.mp hs2 with ⟨hlt2, -⟩
  have hlen3 : ¬ (pySplitOn line.data ':').length < 3 := by omega
  have hcat2 : cat = "Meson_corr".data ∨ cat = "gluinoglue".data := by simpa using hcat
  cases hcol : flexColumns s3 with
  | mk ti vi =>
    have httok' : (pySplitOn line.data ':')[ti]? = Option.some ttok := by
      rw [hcol] at httok
      simpa [List.get?_eq_getElem?] using httok
    have htraj' : pyInt ((pySplitOn line.data ':')[1]?.getD []) = Option.some T := by
      simpa [List.getD, List.get?_eq_getElem?] using htraj
    have hs2' : (pySplitOn line.data ':')[2]? = Option.some cat := by
      simpa [List.get?_eq_getElem?] using hs2
    have hs3' : (pySplitOn line.data ':')[3]? = Option.some s3 := by
      simpa [List.get?_eq_getElem?] using hs3
    unfold flexStep
    rcases hcat2 with hc2 | hc2 <;> subst hc2 <;>
      simp +decide [h0, hlen3, hs2', hs3', hskip, hcor, htraj', hcur, hst, hdup, hcol,
        pyIx, pyE, httok', except_ok_bind, htk, hne]

/-- Witness for C5: in a block whose first value carried time index 0 (the
expected index is now 1), a line with time index 2 raises; the full parse
of the two-line input fails with the structural error. -/
theorem flex_time_skip_raises_witness :
    flexStep "s" (mkRat 1 2)
      { current_trajectory := Option.some 1, current_state := Option.some "pscalar",
        correlator_values := [mkRat 1 2], t_index := 1, read_cfgs := [],
        ens := CorrelatorEnsemble.new, warnings := 0 }
      "(MM):1:Meson_corr:pscalar:a:b:c:2:d:0.5" =
      Except.error PyErr.timeIndexInconsistent ∧
    read_correlators_flexlatsim
      ["(MM):1:Meson_corr:pscalar:a:b:c:0:d:0.5", "(MM):1:Meson_corr:pscalar:a:b:c:2:d:0.5"]
      (mkRat 1 2) "s" = Except.error PyErr.timeIndexInconsistent :=
  ⟨flex_time_skip_raises "s" (mkRat 1 2)
    { current_trajectory := Option.some 1, current_state := Option.some "pscalar",
      correlator_values := [mkRat 1 2], t_index := 1, read_cfgs := [],
      ens := CorrelatorEnsemble.new, warnings := 0 }
    "(MM):1:Meson_corr:pscalar:a:b:c:2:d:0.5" 1 2 "Meson_corr".data "pscalar".data "2".data
    (by decide) (by decide) (by decide) (by decide) (by decide) (by decide) (by decide)
    (by decide) (by decide) (by decide) (by decide) (by decide) (by decide),
   by rfl⟩

theorem scanFlags_eq_none : ∀ (cs : List Char) (rr : Option (List Char)),
    scanFlags cs rr = Option.none
  | [], _ => rfl
  | _ :: rest, _ => scanFlags_eq_none rest _

theorem updateRunRepr_eq_none (cs : List Char) :
    updateRunRepr Option.none cs = Option.none := by
  unfold updateRunRepr
  split
  · exact scanFlags_eq_none cs Option.none
  · rfl

/-- C8 counterexample: an input whose two configuration-read lines
reference the same `(run_name, cfg_index)` pair produces **no** duplicate
warning for the second read line (the seen-set is only populated by data
lines); ingestion continues and the following data line is stored. -/
theorem hirep_duplicate_read_warning_cex :
    (hirepIngest
      ["[IO][0]Configuration [runs/run1_4x2x2x2nc2nf2b2.0m-0.5n7] read",
       "[IO][0]Configuration [runs/run1_4x2x2x2nc2nf2b2.0m-0.5n7] read",
       "[MAIN][0]conf #0 mass=-0.5 TRIPLET g5= 0.1 0.2 0.3 0.4"]).map
      (fun st => (st.dup_warnings, st.ens.correlators.length)) = Except.ok (0, 1) := by
  decide

/-- C8 amended: a configuration-read line never raises (given the
machine-checked invariant that `run_repr` is `None`), leaves the seen-set
and the ensemble untouched, and logs the duplicate warning exactly when its
`(run_name, cfg_index)` pair is already in the seen-set — which only data
lines populate.  Hence a repeated read line warns when a data line for that
pair was ingested in between, and stays silent otherwise. -/
theorem hirep_read_line_warns_iff_seen (st : HirepState) (line : String)
    (rest : List (List Char)) (t1 : List Char) (p : CfgFileParams)
    (hrr : st.run_repr = Option.none)
    (hlc : pySplitWs line.data = "[IO][0]Configuration".data :: rest)
    (h2 : rest.get? 1 = Option.some "read".data)
    (h1 : rest.get? 0 = Option.some t1)
    (hp : parse_cfg_filename ((t1.drop 1).dropLast) = Except.ok p) :
    (hirepStep st line).map HirepState.dup_warnings =
      Except.ok (st.dup_warnings +
        (if (p.run_name, p.cfg_index) ∈ st.read_cfgs then 1 else 0)) ∧
    (hirepStep st line).map HirepState.read_cfgs = Except.ok st.read_cfgs ∧
    (hirepStep st line).map HirepState.ens = Except.ok st.ens := by
  have h2' : pyIx ("[IO][0]Configuration".data :: rest) 2 = Except.ok "read".data := by
    unfold pyIx
    rw [show ("[IO][0]Configuration".data :: rest).get? 2 = rest.get? 1 from rfl, h2]
    rfl
  have h1' : pyIx ("[IO][0]Configuration".data :: rest) 1 = Except.ok t1 := by
    unfold pyIx
    rw [show ("[IO][0]Configuration".data :: rest).get? 1 = rest.get? 0 from rfl, h1]
    rfl
  have hp' : parse_cfg_filename (t1.tail.dropLast) = Except.ok p := by
    simpa using hp
  have hupd : updateRunRepr st.run_repr line.data = Option.none := by
    rw [hrr]; exact updateRunRepr_eq_none line.data
  unfold hirepStep hirepLineBody hirepCfgBranch
  rcases hrep : p.rep with _ | r <;>
    simp +decide [hlc, h2', h1', hp', hupd, hrep, resolveRep, except_ok_bind, Except.map]

/-- Witness for the amended C8 theorem: with the pair already in the
seen-set (a data line for it was ingested), the repeated read line logs
exactly one duplicate warning, does not raise, and leaves seen-set and
ensemble unchanged. -/
theorem hirep_read_line_warns_iff_seen_witness :
    (hirepStep
      { metadata := [], read_cfgs := [("run1", 7)], run_repr := Option.none,
        cur := Option.none, ens := CorrelatorEnsemble.new, dup_warnings := 0,
        meta_warnings := 0 }
      "[IO][0]Configuration [runs/run1_4x2x2x2nc2nf2b2.0m-0.5n7] read").map
      HirepState.dup_warnings = Except.ok 1 ∧
    (hirepStep
      { metadata := [], read_cfgs := [("run1", 7)], run_repr := Option.none,
        cur := Option.none, ens := CorrelatorEnsemble.new, dup_warnings := 0,
        meta_warnings := 0 }
      "[IO][0]Configuration [runs/run1_4x2x2x2nc2nf2b2.0m-0.5n7] read").map
      HirepState.read_cfgs = Except.ok [("run1", 7)] ∧
    (hirepStep
      { metadata := [], read_cfgs := [("run1", 7)], run_repr := Option.none,
        cur := Option.none, ens := CorrelatorEnsemble.new, dup_warnings := 0,
        meta_warnings := 0 }
      "[IO][0]Configuration [runs/run1_4x2x2x2nc2nf2b2.0m-0.5n7] read").map
      HirepState.ens = Except.ok CorrelatorEnsemble.new :=
  hirep_read_line_warns_iff_seen
    { metadata := [], read_cfgs := [("run1", 7)], run_repr := Option.none,
      cur := Option.none, ens := CorrelatorEnsemble.new, dup_warnings := 0,
      meta_warnings := 0 }
    "[IO][0]Configuration [runs/run1_4x2x2x2nc2nf2b2.0m-0.5n7] read"
    ["[runs/run1_4x2x2x2nc2nf2b2.0m-0.5n7]".data, "read".data]
    "[runs/run1_4x2x2x2nc2nf2b2.0m-0.5n7]".data
    { run_name := "run1", Nc := 2, rep := Option.none, Nf := 2, beta := mkRat 2 1,
      mass := mkRat (-1) 2, cfg_index := 7 }
    rfl (by decide) (by decide) (by decide) (by decide)


theorem except_error_bind {e a b : Type} (err : e) (f : a → Except e b) :
    ((Except.error err : Except e a) >>= f) = Except.error err := rfl

theorem ok_of_bind {α β : Type} {x : Except PyErr α} {f : α → Except PyErr β} {b : β}
    (h : (x >>= f) = Except.ok b) : ∃ a, x = Except.ok a ∧ f a = Except.ok b := by
  cases x with
  | error e => rw [except_error_bind] at h; exact absurd h (by simp)
  | ok a => exact ⟨a, rfl, by rwa [except_ok_bind] at h⟩

theorem noRep_ok {α : Type} (a : α) :
    (Except.ok a : Except PyErr α) ≠ Except.error PyErr.representationMismatch :=
  fun h => nomatch h

theorem noRep_error {α : Type} (e : PyErr) (he : e ≠ PyErr.representationMismatch) :
    (Except.error e : Except PyErr α) ≠ Except.error PyErr.representationMismatch := by
  intro hc
  injection hc with h
  exact he h

theorem noRep_bind {α β : Type} (x : Except PyErr α) (f : α → Except PyErr β)
    (hx : x ≠ Except.error PyErr.representationMismatch)
    (hf : ∀ a, x = Except.ok a → f a ≠ Except.error PyErr.representationMismatch) :
    (x >>= f) ≠ Except.error PyErr.representationMismatch := by
  cases x with
  | error e =>
    rw [except_error_bind]
    intro hc
    injection hc with h
    exact hx (by rw [h])
  | ok a => rw [except_ok_bind]; exact hf a rfl

theorem noRep_pyE {α : Type} (e : PyErr) (he : e ≠ PyErr.representationMismatch)
    (o : Option α) : pyE e o ≠ Except.error PyErr.representationMismatch := by
  cases o with
  | none => exact noRep_error e he
  | some a => exact noRep_ok a

theorem noRep_mapM {α β : Type} (f : α → Except PyErr β)
    (hf : ∀ a, f a ≠ Except.error PyErr.representationMismatch) (l : List α) :
    l.mapM f ≠ Except.error PyErr.representationMismatch := by
  induction l with
  | nil => exact noRep_ok []
  | cons a l ih =>
    rw [List.mapM_cons]
    refine noRep_bind _ _ (hf a) fun b _ => ?_
    refine noRep_bind _ _ ih fun bs _ => ?_
    exact noRep_ok _

theorem noRep_repOfTag (t : Option (List Char)) :
    repOfTag t ≠ Except.error PyErr.representationMismatch := by
  unfold repOfTag
  rcases t with _ | caps
  · exact noRep_ok _
  · rcases hlk : repsTable.lookup (String.mk caps) with _ | full <;> simp [hlk]

theorem noRep_nfOfGroup (o : Option Int) :
    nfOfGroup o ≠ Except.error PyErr.representationMismatch := by
  unfold nfOfGroup
  rcases o with _ | n
  · exact noRep_error _ (by decide)
  · exact noRep_ok _

theorem noRep_parse_cfg_filename (cs : List Char) :
    parse_cfg_filename cs ≠ Except.error PyErr.representationMismatch := by
  unfold parse_cfg_filename
  refine noRep_bind _ _ (noRep_pyE _ (by decide) _) fun seg _ => ?_
  refine noRep_bind _ _ (noRep_pyE _ (by decide) _) fun rg _ => ?_
  refine noRep_bind _ _ (noRep_repOfTag _) fun rep _ => ?_
  refine noRep_bind _ _ (noRep_nfOfGroup _) fun nf _ => ?_
  exact noRep_ok _

theorem noRep_append {V : Type} (e : CorrelatorEnsemble V) (c : Correlator V) :
    e.append c ≠ Except.error PyErr.representationMismatch := by
  unfold CorrelatorEnsemble.append
  split
  · exact noRep_error _ (by decide)
  · split
    · exact noRep_ok _
    · split
      · exact noRep_ok _
      · exact noRep_error _ (by decide)

theorem noRep_addGeomMetadata (md : MMap) (lc : List (List Char)) (t0 : List Char) :
    addGeomMetadata md lc t0 ≠ Except.error PyErr.representationMismatch := by
  unfold addGeomMetadata
  split
  · refine noRep_bind _ _ (noRep_pyE _ (by decide) _) fun t3 _ => ?_
    refine noRep_bind _ _ (noRep_pyE _ (by decide) _) fun g _ => ?_
    exact noRep_ok _
  · exact noRep_ok _

theorem noRep_addMassMetadata (md : MMap) (lc : List (List Char)) (t0 : List Char) :
    addMassMetadata md lc t0 ≠ Except.error PyErr.representationMismatch := by
  unfold addMassMetadata
  split
  · refine noRep_bind _ _ (noRep_pyE _ (by decide) _) fun t2 _ => ?_
    refine noRep_bind _ _ (noRep_pyE _ (by decide) _) fun v _ => ?_
    exact noRep_ok _
  · exact noRep_ok _

theorem noRep_addFermionMetadata (md : MMap) (lc : List (List Char)) :
    addFermionMetadata md lc ≠ Except.error PyErr.representationMismatch := by
  unfold addFermionMetadata
  split
  · refine noRep_bind _ _ (noRep_pyE _ (by decide) _) fun t2 _ => ?_
    exact noRep_ok _
  · exact noRep_ok _

theorem noRep_addGroupMetadata (md : MMap) (lc : List (List Char)) (t0 t1 : List Char) :
    addGroupMetadata md lc t0 t1 ≠ Except.error PyErr.representationMismatch := by
  unfold addGroupMetadata
  split
  · refine noRep_bind _ _ (noRep_pyE _ (by decide) _) fun t2 _ => ?_
    unfold addGroupMetadata.hsplit
    split
    · refine noRep_bind _ _ (noRep_pyE _ (by decide) _) fun n _ => ?_
      exact noRep_ok _
    · exact noRep_error _ (by decide)
  · exact noRep_ok _

theorem noRep_add_metadata (md : MMap) (lc : List (List Char)) :
    add_metadata md lc ≠ Except.error PyErr.representationMismatch := by
  unfold add_metadata
  refine noRep_bind _ _ (noRep_addGeomMetadata _ _ _) fun md1 _ => ?_
  refine noRep_bind _ _ (noRep_addMassMetadata _ _ _) fun md2 _ => ?_
  refine noRep_bind _ _ (noRep_addFermionMetadata _ _) fun md3 _ => ?_
  refine noRep_bind _ _ (noRep_pyE _ (by decide) _) fun t1 _ => ?_
  refine noRep_bind _ _ (noRep_addGroupMetadata _ _ _ _) fun md4 _ => ?_
  exact noRep_ok _

theorem noRep_hirepSourceType (lc : List (List Char)) (t5 : List Char) :
    hirepSourceType lc t5 ≠ Except.error PyErr.representationMismatch := by
  unfold hirepSourceType
  split
  · refine noRep_bind _ _ (noRep_pyE _ (by decide) _) fun t3 _ => ?_
    exact noRep_ok _
  · exact noRep_ok _

theorem noRep_hirep_add_row (ens : CorrelatorEnsemble ℚ) (lc : List (List Char))
    (sn : String) (ci : Int) :
    hirep_add_row ens lc sn ci ≠ Except.error PyErr.representationMismatch := by
  unfold hirep_add_row
  refine noRep_bind _ _ (noRep_pyE _ (by decide) _) fun t2 _ => ?_
  refine noRep_bind _ _ (noRep_pyE _ (by decide) _) fun vm _ => ?_
  refine noRep_bind _ _ (noRep_pyE _ (by decide) _) fun t5 _ => ?_
  refine noRep_bind _ _ (noRep_hirepSourceType _ _) fun sl _ => ?_
  refine noRep_bind _ _ (noRep_pyE _ (by decide) _) fun t3 _ => ?_
  refine noRep_bind _ _ (noRep_pyE _ (by decide) _) fun t4 _ => ?_
  refine noRep_bind _ _ (noRep_mapM _ (fun t => noRep_pyE _ (by decide) _) _)
    fun corr _ => ?_
  exact noRep_append _ _

theorem noRep_resolveRep (rep : Option String) (rr : Option (List Char))
    (h : rr = Option.none) :
    resolveRep rep rr ≠ Except.error PyErr.representationMismatch := by
  unfold resolveRep
  rcases rep with _ | r
  · exact noRep_ok _
  · rw [h]
    exact noRep_ok _

theorem hirepCfgBranch_no_mismatch (st : HirepState) (lc : List (List Char))
    (h : st.run_repr = Option.none) :
    hirepCfgBranch st lc ≠ Except.error PyErr.representationMismatch ∧
    ∀ st', hirepCfgBranch st lc = Except.ok st' → st'.run_repr = Option.none := by
  constructor
  · unfold hirepCfgBranch
    refine noRep_bind _ _ (noRep_pyE _ (by decide) _) fun t1 _ => ?_
    refine noRep_bind _ _ (noRep_parse_cfg_filename _) fun p _ => ?_
    refine noRep_bind _ _ (noRep_resolveRep _ _ h) fun rep _ => ?_
    exact noRep_ok _
  · intro st' hok
    unfold hirepCfgBranch at hok
    obtain ⟨t1, -, hok⟩ := ok_of_bind hok
    obtain ⟨p, -, hok⟩ := ok_of_bind hok
    obtain ⟨rep, -, hok⟩ := ok_of_bind hok
    simp only [Except.ok.injEq] at hok
    subst hok
    exact h

theorem hirepDataBranch_no_mismatch (st : HirepState) (lc : List (List Char))
    (h : st.run_repr = Option.none) :
    hirepDataBranch st lc ≠ Except.error PyErr.representationMismatch ∧
    ∀ st', hirepDataBranch st lc = Except.ok st' → st'.run_repr = Option.none := by
  constructor
  · unfold hirepDataBranch
    refine noRep_bind _ _ (noRep_add_metadata _ _) fun md _ => ?_
    split
    · split
      · exact noRep_error _ (by decide)
      · refine noRep_bind _ _ (noRep_hirep_add_row _ _ _ _) fun ens _ => ?_
        exact noRep_ok _
    · exact noRep_ok _
  · intro st' hok
    unfold hirepDataBranch at hok
    obtain ⟨md, -, hok⟩ := ok_of_bind hok
    split at hok
    · split at hok
      · exact absurd hok (by simp)
      · obtain ⟨ens, -, hok⟩ := ok_of_bind hok
        simp only [Except.ok.injEq] at hok
        subst hok
        exact h
    · simp only [Except.ok.injEq] at hok
      subst hok
      exact h

theorem hirepLineBody_no_mismatch (st : HirepState) (lc : List (List Char))
    (h : st.run_repr = Option.none) :
    hirepLineBody st lc ≠ Except.error PyErr.representationMismatch ∧
    ∀ st', hirepLineBody st lc = Except.ok st' → st'.run_repr = Option.none := by
  have htest : ∀ e, (if lc.headD [] == "[IO][0]Configuration".data then
      (pyIx lc 2).map (fun t2 => t2 == "read".data)
    else Except.ok false) = Except.error e → e = PyErr.indexError := by
    intro e he
    split at he
    · unfold pyIx pyE at he
      rcases hg : lc.get? 2 with _ | t2 <;> rw [hg] at he
      · simp only [Except.map, Except.error.injEq] at he
        exact he.symm
      · simp [Except.map] at he
    · exact absurd he (by simp)
  constructor
  · unfold hirepLineBody
    split
    · rename_i e he
      rw [htest e he]
      exact noRep_error _ (by decide)
    · exact (hirepCfgBranch_no_mismatch st lc h).1
    · exact (hirepDataBranch_no_mismatch st lc h).1
  · intro st' hok
    unfold hirepLineBody at hok
    split at hok
    · exact absurd hok (by simp)
    · exact (hirepCfgBranch_no_mismatch st lc h).2 st' hok
    · exact (hirepDataBranch_no_mismatch st lc h).2 st' hok

theorem hirepStep_no_mismatch (st : HirepState) (line : String)
    (h : st.run_repr = Option.none) :
    hirepStep st line ≠ Except.error PyErr.representationMismatch ∧
    ∀ st', hirepStep st line = Except.ok st' → st'.run_repr = Option.none := by
  have hupd : ({ st with run_repr := updateRunRepr st.run_repr line.data } :
      HirepState).run_repr = Option.none := by
    simp only
    rw [h]
    exact updateRunRepr_eq_none line.data
  unfold hirepStep
  cases hlc : pySplitWs line.data with
  | nil =>
    exact ⟨noRep_ok st, fun st' hok => by
      simp only [Except.ok.injEq] at hok
      subst hok
      exact h⟩
  | cons t0 ts =>
    exact ⟨(hirepLineBody_no_mismatch _ _ hupd).1,
      (hirepLineBody_no_mismatch _ _ hupd).2⟩

theorem hirepIngest_no_mismatch :
    ∀ (lines : List String) (st : HirepState), st.run_repr = Option.none →
      lines.foldlM hirepStep st ≠ Except.error PyErr.representationMismatch
  | [], st, _ => by rw [List.foldlM_nil]; exact noRep_ok st
  | l :: ls, st, h => by
    rw [List.foldlM_cons]
    refine noRep_bind _ _ ((hirepStep_no_mismatch st l h).1) fun st' hok => ?_
    exact hirepIngest_no_mismatch ls st' ((hirepStep_no_mismatch st l h).2 st' hok)

/-- C4 (code bug): the Hirep parser can never raise the
representation-mismatch error, for any input whatsoever — so a
macro-declared compile-time representation conflicting with a
per-configuration-filename representation is silently accepted.  The cause
is a chain of slips in the source: the macro-line detection tests
`line[0]` (the first character of the raw line) against an 18-character
marker, the flag scan iterates the characters of the line, the loop's
`for`/`else` clause resets `run_repr` to `None` unconditionally, and the
mismatch comparison reads the builtin `repr` instead of the parsed `rep`.
With `run_repr` provably always `None`, the raise is unreachable. -/
theorem hirep_representation_mismatch_never_raised (lines : List String) :
    read_correlators_hirep lines ≠ Except.error PyErr.representationMismatch := by
  unfold read_correlators_hirep
  refine noRep_bind _ _ (hirepIngest_no_mismatch lines {} rfl) fun st _ => ?_
  refine noRep_bind _ _ ?_ fun ens _ => ?_
  · unfold CorrelatorEnsemble.freeze
    split
    · exact noRep_error _ (by decide)
    · exact noRep_ok _
  · exact noRep_ok _
